import Mathlib

/-!
Verification of the pubpub-airtable-gateway migration core.

This file gives a shallow embedding, in Lean, of the parts of the repository
that drive the Airtable → PubPub migration:

* the value coercion layer `format_field_value` (src/create_test_pubs.py),
* the field-mapping suggester `suggest_field_mapping` and its rule table
  `FIELD_MAPPING_RULES` (src/create_test_pubs.py),
* the two-phase record migration driver `main` / `create_pub_from_record` /
  `update_pub_relations` (src/create_test_pubs.py),
* the configuration transfer `transfer_pub_types` / `transfer_stages` /
  `transfer_fields` of src/transfer_config_and_data.py and the name-matching
  variants of src/improved_transfer.py.

Python dictionaries are modelled as insertion-ordered association lists,
Python values as the inductive type `Value`, and network calls as explicit
oracle functions (success returns the id the server would mint, failure
returns `none`).  Operations that the scripts perform against the target
API are reified as events so that ordering properties can be stated.
-/

namespace PubGateway

/-- A Python/JSON value as it appears in Airtable records and PubPub payloads:
`None`, strings, ints, floats (modelled as rationals), booleans and lists. -/
inductive Value where
  | null : Value
  | str : String → Value
  | int : Int → Value
  | float : Rat → Value
  | bool : Bool → Value
  | list : List Value → Value
deriving Repr

mutual
/-- Boolean equality on `Value`, structural. -/
def Value.beq : Value → Value → Bool
  | .null, .null => true
  | .str a, .str b => a == b
  | .int a, .int b => a == b
  | .float a, .float b => a == b
  | .bool a, .bool b => a == b
  | .list a, .list b => Value.beqList a b
  | _, _ => false

/-- Boolean equality on lists of `Value`. -/
def Value.beqList : List Value → List Value → Bool
  | [], [] => true
  | a :: as, b :: bs => Value.beq a b && Value.beqList as bs
  | _, _ => false
end

instance : BEq Value := ⟨Value.beq⟩

mutual
theorem Value.beq_iff : ∀ a b : Value, Value.beq a b = true ↔ a = b
  | .null, b => by cases b <;> simp [Value.beq]
  | .str a, b => by cases b <;> simp [Value.beq]
  | .int a, b => by cases b <;> simp [Value.beq]
  | .float a, b => by cases b <;> simp [Value.beq]
  | .bool a, b => by cases b <;> simp [Value.beq]
  | .list a, b => by
      cases b <;> simp [Value.beq]
      exact Value.beqList_iff a _

theorem Value.beqList_iff : ∀ a b : List Value, Value.beqList a b = true ↔ a = b
  | [], b => by cases b <;> simp [Value.beqList]
  | a :: as, b => by
      cases b with
      | nil => simp [Value.beqList]
      | cons b bs =>
        simp only [Value.beqList, Bool.and_eq_true, List.cons.injEq]
        exact and_congr (Value.beq_iff a b) (Value.beqList_iff as bs)
end

instance : DecidableEq Value := fun a b =>
  decidable_of_iff (Value.beq a b = true) (Value.beq_iff a b)

/-- Python `str()` applied to a float, modelled for rationals: an integral
value renders with a trailing `.0` as CPython does; a non-integral value is
rendered as a fraction (an admitted approximation of binary float printing,
which no migration branch inspects). -/
def floatStr (q : Rat) : String :=
  if q.den = 1 then toString q.num ++ ".0" else toString q.num ++ "/" ++ toString q.den

/-- Python `str.lower()` (character-wise; the migration data is ASCII). -/
def toLowerStr (s : String) : String :=
  String.mk (s.toList.map Char.toLower)

/-- Split a character list on a separator character; `[[]]` on empty input,
exactly Python `str.split(sep)` restricted to one-character separators. -/
def splitChars (sep : Char) : List Char → List (List Char)
  | [] => [[]]
  | c :: rest =>
    let r := splitChars sep rest
    if c = sep then [] :: r
    else
      match r with
      | h :: t => (c :: h) :: t
      | [] => [[c]]

/-- Python `s.split(sep)` for a one-character separator. -/
def splitOnChar (sep : Char) (s : String) : List String :=
  (splitChars sep s.toList).map String.mk

/-- Python `s.replace("Z", "+00:00")` (one-character needle). -/
def replaceZ (s : String) : String :=
  String.mk ((s.toList.map
    (fun c => if c = 'Z' then ['+', '0', '0', ':', '0', '0'] else [c])).flatten)

/-- Python `sep.join(parts)`. -/
def intercalateStr (sep : String) : List String → String
  | [] => ""
  | [x] => x
  | x :: xs => x ++ sep ++ intercalateStr sep xs

mutual
/-- Python `str(value)` on the modelled value universe. -/
def pyStr : Value → String
  | .null => "None"
  | .str s => s
  | .int n => toString n
  | .float q => floatStr q
  | .bool b => if b then "True" else "False"
  | .list vs => "[" ++ intercalateStr ", " (pyReprList vs) ++ "]"

/-- Python `repr(value)` for each element of a list (as `str(list)` shows). -/
def pyRepr : Value → String
  | .str s => "'" ++ s ++ "'"
  | .null => "None"
  | .int n => toString n
  | .float q => floatStr q
  | .bool b => if b then "True" else "False"
  | .list vs => "[" ++ intercalateStr ", " (pyReprList vs) ++ "]"

/-- `repr` of each element of a list of values. -/
def pyReprList : List Value → List String
  | [] => []
  | v :: vs => pyRepr v :: pyReprList vs
end

/-- Python truthiness on the modelled value universe. -/
def pyTruthy : Value → Bool
  | .null => false
  | .str s => !s.isEmpty
  | .int n => n != 0
  | .float q => q != 0
  | .bool b => b
  | .list vs => !vs.isEmpty

/-- Insertion-ordered dictionary assignment `m[k] = v`: replace in place when
the key exists, append otherwise — exactly Python `dict` semantics. -/
def dictSet {α : Type} : List (String × α) → String → α → List (String × α)
  | [], k, v => [(k, v)]
  | (k', v') :: rest, k, v =>
    if k' = k then (k, v) :: rest else (k', v') :: dictSet rest k v

/-- Dictionary lookup `m.get(k)` (keys kept unique by `dictSet`, so the
first hit is the entry). -/
def lookupAssoc {α : Type} : List (String × α) → String → Option α
  | [], _ => none
  | (k', v) :: rest, k => if k' = k then some v else lookupAssoc rest k

theorem lookupAssoc_dictSet {α : Type} (m : List (String × α)) (k k' : String) (v : α) :
    lookupAssoc (dictSet m k v) k' = if k = k' then some v else lookupAssoc m k' := by
  induction m with
  | nil => simp [dictSet, lookupAssoc]
  | cons p rest ih =>
    obtain ⟨pk, pv⟩ := p
    simp only [dictSet]
    by_cases hk : pk = k
    · subst hk
      by_cases h : pk = k' <;> simp [lookupAssoc, h]
    · rw [if_neg hk]
      by_cases h : pk = k'
      · subst h
        have hkk : ¬k = pk := fun hh => hk hh.symm
        simp [lookupAssoc, hkk]
      · simp [lookupAssoc, h, ih]

/-- Decide whether `pat` occurs as a contiguous run inside `s` starting at the
front.  Helper for the substring test. -/
def charsLead : List Char → List Char → Bool
  | [], _ => true
  | _ :: _, [] => false
  | a :: as, b :: bs => a == b && charsLead as bs

/-- Decide whether `pat` occurs contiguously anywhere inside `s`. -/
def charsContains (pat : List Char) : List Char → Bool
  | [] => pat.isEmpty
  | c :: rest => charsLead pat (c :: rest) || charsContains pat rest

/-- `re.search(pattern, s)` for the literal (regex-metacharacter-free)
patterns used by the rule tables: substring containment. -/
def reSearch (pat s : String) : Bool :=
  charsContains pat.toList s.toList

/-! ### Date parsing primitives

`datetime.strptime(value, "%Y-%m-%d")` and `datetime.isoformat` are modelled
arithmetically: a date string parses when it has the shape `Y-M-D` with
numeric components forming a valid proleptic-Gregorian calendar date, and
`isoformat` of the resulting midnight datetime zero-pads the components and
appends `T00:00:00`. -/

/-- Days in a month of the proleptic Gregorian calendar. -/
def daysInMonth (y m : Nat) : Nat :=
  if m = 2 then
    if y % 4 = 0 && (y % 100 ≠ 0 || y % 400 = 0) then 29 else 28
  else if m = 4 || m = 6 || m = 9 || m = 11 then 30
  else 31

/-- Parse a decimal natural number; `none` when empty or non-digit. -/
def parseNatDigits (s : String) : Option Nat :=
  if s.isEmpty then none
  else if s.toList.all Char.isDigit then
    some (s.toList.foldl (fun n c => n * 10 + (c.toNat - 48)) 0)
  else none

/-- `datetime.strptime(s, "%Y-%m-%d")`: three dash-separated numeric fields
forming a valid calendar date (year at most 4 digits, as `%Y` accepts). -/
def parseDateYMD (s : String) : Option (Nat × Nat × Nat) :=
  match splitOnChar '-' s with
  | [ys, ms, ds] =>
    match parseNatDigits ys, parseNatDigits ms, parseNatDigits ds with
    | some y, some m, some d =>
      if ys.length ≤ 4 && ms.length ≤ 2 && ds.length ≤ 2 &&
         1 ≤ m && m ≤ 12 && 1 ≤ d && d ≤ daysInMonth y m && 1 ≤ y then
        some (y, m, d)
      else none
    | _, _, _ => none
  | _ => none

/-- Zero-pad a numeral to the given width. -/
def padNum (width n : Nat) : String :=
  let s := toString n
  String.mk (List.replicate (width - s.length) '0') ++ s

/-- `datetime(y, m, d).isoformat()` — the normalized midnight datetime. -/
def isoDateTimeOf (y m d : Nat) : String :=
  padNum 4 y ++ "-" ++ padNum 2 m ++ "-" ++ padNum 2 d ++ "T00:00:00"

/-- Parse `HH:MM:SS` (two-digit fields in range). -/
def parseTimeHMS (s : String) : Option (Nat × Nat × Nat) :=
  match splitOnChar ':' s with
  | [hs, ms, ss] =>
    match parseNatDigits hs, parseNatDigits ms, parseNatDigits ss with
    | some h, some mi, some se =>
      if hs.length = 2 && ms.length = 2 && ss.length = 2 &&
         h ≤ 23 && mi ≤ 59 && se ≤ 59 then some (h, mi, se) else none
    | _, _, _ => none
  | _ => none

/-- `datetime.fromisoformat(s).isoformat()`, modelled for the subset
`YYYY-MM-DD[THH:MM:SS[±HH:MM]]` of ISO-8601 (CPython accepts this subset;
the migration only relies on parse-or-raise, which this preserves). -/
def parseIsoNormalize (s : String) : Option String :=
  match splitOnChar 'T' s with
  | [dpart] =>
    (parseDateYMD dpart).map (fun ymd => isoDateTimeOf ymd.1 ymd.2.1 ymd.2.2)
  | [dpart, tpart] =>
    match parseDateYMD dpart with
    | none => none
    | some (y, m, d) =>
      let renderDT := fun (h mi se : Nat) (off : String) =>
        padNum 4 y ++ "-" ++ padNum 2 m ++ "-" ++ padNum 2 d ++ "T" ++
          padNum 2 h ++ ":" ++ padNum 2 mi ++ ":" ++ padNum 2 se ++ off
      match splitOnChar '+' tpart with
      | [hms] =>
        (parseTimeHMS hms).map (fun t => renderDT t.1 t.2.1 t.2.2 "")
      | [hms, offs] =>
        match parseTimeHMS hms, splitOnChar ':' offs with
        | some t, [oh, om] =>
          match parseNatDigits oh, parseNatDigits om with
          | some h, some mi =>
            if oh.length = 2 && om.length = 2 && h ≤ 23 && mi ≤ 59 then
              some (renderDT t.1 t.2.1 t.2.2 ("+" ++ oh ++ ":" ++ om))
            else none
          | _, _ => none
        | _, _ => none
      | _ => none
  | _ => none

/-- Parse an optionally signed decimal literal (digits with optional single
point) into a rational — the model of Python `float(string)`; inputs outside
this subset fail as `float` raises `ValueError`. -/
def parseDec (s : String) : Option Rat :=
  let core := fun (t : List Char) =>
    match splitChars '.' t with
    | [ip] => (parseNatDigits (String.mk ip)).map (fun n => (n : Rat))
    | [ip, fp] =>
      match parseNatDigits (String.mk ip), parseNatDigits (String.mk fp) with
      | some i, some f => some ((i : Rat) + (f : Rat) / ((10 : Rat) ^ fp.length))
      | _, _ => none
    | _ => none
  match s.toList with
  | [] => none
  | '-' :: rest => (core rest).map (fun q => -q)
  | '+' :: rest => core rest
  | l => core l

/-- Python `float(value)`: succeeds on numbers and booleans, parses decimal
strings, raises (`Except.error`) on anything else. -/
def pyFloat : Value → Except String Rat
  | .int n => .ok (n : Rat)
  | .float q => .ok q
  | .bool b => .ok (if b then 1 else 0)
  | .str s =>
    match parseDec s with
    | some q => .ok q
    | none => .error "ValueError"
  | .null => .error "TypeError"
  | .list _ => .error "TypeError"

/-- Python `datetime.strptime(value, "%Y-%m-%d")`: raises `TypeError` on a
non-string, `ValueError` on an unparsable string. -/
def pyStrptimeYMD : Value → Except String (Nat × Nat × Nat)
  | .str s =>
    match parseDateYMD s with
    | some ymd => .ok ymd
    | none => .error "ValueError"
  | _ => .error "TypeError"

/-- `format_field_value(value, field_type)` of src/create_test_pubs.py,
lines 155–215, translated branch by branch.  Exceptions raised by the Python
primitives are `Except.error`; every `try/except` of the source appears as an
explicit match on the primitive's result, so an `Except.error` result of this
function would mean an uncaught exception escaping the Python function. -/
def format_field_value (value : Value) (field_type : String) : Except String Value :=
  match value with
  | .null => .ok .null
  | _ =>
    if field_type = "singleSelect" then .ok (.str (pyStr value))
    else if field_type = "multipleSelects" then
      match value with
      | .list vs => .ok (.list (vs.map (fun v => .str (pyStr v))))
      | v => .ok (.list [.str (pyStr v)])
    else if field_type = "date" then
      match pyStrptimeYMD value with
      | .ok (y, m, d) => .ok (.str (isoDateTimeOf y m d))
      | .error _ => .ok value
    else if field_type = "dateTime" then
      match value with
      | .str s =>
        match parseIsoNormalize (replaceZ s) with
        | some norm => .ok (.str norm)
        | none => .ok value
      | v => .ok v
    else if field_type = "multilineText" then .ok (.str (pyStr value))
    else if field_type = "richText" then .ok (.str (pyStr value))
    else if field_type = "checkbox" then .ok (.bool (pyTruthy value))
    else if field_type = "number" then
      match pyFloat value with
      | .ok q => .ok (.float q)
      | .error _ => .ok .null
    else if field_type = "formula" then
      match value with
      | .int _ => .ok value
      | .float _ => .ok value
      | .bool _ => .ok value
      | v => .ok (.str (pyStr v))
    else if field_type = "multipleRecordLinks" then
      match value with
      | .list vs => .ok (.list (vs.map (fun v => .str (pyStr v))))
      | v => if pyTruthy v then .ok (.list [.str (pyStr v)]) else .ok (.list [])
    else if field_type = "multipleLookupValues" then
      match value with
      | .list vs => .ok (.list vs)
      | v => if pyTruthy v then .ok (.list [v]) else .ok (.list [])
    else if field_type = "url" then .ok (.str (pyStr value))
    else if field_type = "email" then .ok (.str (pyStr value))
    else .ok value

/-- The value actually produced by the coercer (total projection, justified
by `format_field_value_ok`). -/
def format_field_valueT (value : Value) (field_type : String) : Value :=
  match format_field_value value field_type with
  | .ok v => v
  | .error _ => .null

theorem isOk_ite {ε α : Type} {c : Prop} [Decidable c] {a b : Except ε α}
    (ha : a.isOk = true) (hb : b.isOk = true) : (if c then a else b).isOk = true := by
  split
  · exact ha
  · exact hb

theorem format_field_value_isOk (value : Value) (field_type : String) :
    (format_field_value value field_type).isOk = true := by
  cases value with
  | null => rfl
  | str s =>
    unfold format_field_value
    repeat' apply isOk_ite
    all_goals try rfl
    · cases pyStrptimeYMD (Value.str s) with
      | ok ymd => obtain ⟨y, m, d⟩ := ymd; rfl
      | error e => rfl
    · show (match parseIsoNormalize (replaceZ s) with
            | some norm => (Except.ok (Value.str norm) : Except String Value)
            | none => Except.ok (Value.str s)).isOk = true
      cases parseIsoNormalize (replaceZ s) <;> rfl
    · cases pyFloat (Value.str s) <;> rfl
  | int n =>
    unfold format_field_value
    repeat' apply isOk_ite
    all_goals rfl
  | float q =>
    unfold format_field_value
    repeat' apply isOk_ite
    all_goals rfl
  | bool b =>
    unfold format_field_value
    repeat' apply isOk_ite
    all_goals rfl
  | list vs =>
    unfold format_field_value
    repeat' apply isOk_ite
    all_goals rfl

theorem format_field_value_ok (value : Value) (field_type : String) :
    format_field_value value field_type = .ok (format_field_valueT value field_type) := by
  have h := format_field_value_isOk value field_type
  cases hfv : format_field_value value field_type with
  | ok r => simp [format_field_valueT, hfv]
  | error e => rw [hfv] at h; simp [Except.isOk, Except.toBool] at h

/-! ### The field-mapping suggester (src/create_test_pubs.py, lines 57–113 and 217–248) -/

/-- A suggested mapping `{"pubpub_field": …, "confidence": …}`. -/
structure Mapping where
  pubpub_field : String
  confidence : String
deriving DecidableEq, Repr

/-- `FIELD_MAPPING_RULES` of src/create_test_pubs.py lines 57–113, in
declaration order; every pattern is a regex-metacharacter-free literal. -/
def FIELD_MAPPING_RULES : List (String × List String) :=
  [ ("title", ["title", "name", "heading", "subject"]),
    ("description", ["description", "abstract", "summary", "notes"]),
    ("pubTypeId", ["type", "category", "kind"]),
    ("relations", ["related", "link", "reference", "parent", "child"]),
    ("status", ["status", "state", "phase"]),
    ("assignee", ["assignee", "owner", "responsible"]),
    ("author", ["author", "creator", "contributor"]),
    ("email", ["email", "contact", "mail"]),
    ("url", ["url", "link", "website"]),
    ("date", ["date", "created", "updated", "timestamp"]) ]

/-- The inner `for pattern in patterns` loop: first pattern that
`re.search`-matches the lowercased name. -/
def firstPat : List String → String → Option String
  | [], _ => none
  | p :: ps, lower => if reSearch p lower then some p else firstPat ps lower

/-- The outer `for pubpub_field, patterns in FIELD_MAPPING_RULES.items()`
loop: first rule (in declaration order) with a matching pattern wins, with
confidence `high` exactly when the winning pattern equals the whole
lowercased name. -/
def scanRules : List (String × List String) → String → Option Mapping
  | [], _ => none
  | (slug, pats) :: rest, lower =>
    match firstPat pats lower with
    | some p => some ⟨slug, if p = lower then "high" else "medium"⟩
    | none => scanRules rest lower

/-- `suggest_field_mapping(field_name, field_type)` of src/create_test_pubs.py
lines 217–248: lowercase the name, scan the rule table, then the fixed
type-based fallback chain, else `None`. -/
def suggest_field_mapping (field_name field_type : String) : Option Mapping :=
  match scanRules FIELD_MAPPING_RULES (toLowerStr field_name) with
  | some m => some m
  | none =>
    if field_type = "multipleRecordLinks" then some ⟨"relations", "medium"⟩
    else if field_type = "url" then some ⟨"url", "medium"⟩
    else if field_type = "email" then some ⟨"email", "medium"⟩
    else none

/-! The specification's reading of the algorithm (spec §4.1), stated as an
independently structured function: flatten the ordered rule table into
(slug, pattern) pairs, take the first matching pair, derive the confidence
from full-name equality, and fall back to a type table.  `C6` proves the
source function refines this. -/

/-- Spec §4.1 type-based fallback table. -/
def fallbackTable : List (String × String) :=
  [ ("multipleRecordLinks", "relations"), ("url", "url"), ("email", "email") ]

/-- Flatten an ordered rule table into (slug, pattern) pairs, preserving
declaration order. -/
def flattenRules : List (String × List String) → List (String × String)
  | [] => []
  | (slug, pats) :: rest => pats.map (fun p => (slug, p)) ++ flattenRules rest

/-- Modelled from the spec (§4.1): lowercase the name; the first
(slug, pattern) pair in declared order whose pattern matches wins;
confidence is high iff the pattern equals the full lowercased name; else the
type-based fallback table; else `none`. -/
def suggestFieldMappingSpec (field_name field_type : String) : Option Mapping :=
  match (flattenRules FIELD_MAPPING_RULES).find? (fun sp => reSearch sp.2 (toLowerStr field_name)) with
  | some (slug, p) => some ⟨slug, if p = toLowerStr field_name then "high" else "medium"⟩
  | none =>
    match fallbackTable.find? (fun tf => field_type = tf.1) with
    | some tf => some ⟨tf.2, "medium"⟩
    | none => none

theorem find?_map_pat (slug lower : String) (pats : List String) :
    (pats.map (fun p => (slug, p))).find? (fun sp => reSearch sp.2 lower) =
      (firstPat pats lower).map (fun p => (slug, p)) := by
  induction pats with
  | nil => rfl
  | cons p ps ih =>
    by_cases h : reSearch p lower = true <;>
      simp [firstPat, List.find?, h, ih]

theorem scanRules_eq_find? (rules : List (String × List String)) (lower : String) :
    scanRules rules lower =
      match (flattenRules rules).find? (fun sp => reSearch sp.2 lower) with
      | some (slug, p) => some ⟨slug, if p = lower then "high" else "medium"⟩
      | none => none := by
  induction rules with
  | nil => rfl
  | cons r rest ih =>
    obtain ⟨slug, pats⟩ := r
    simp only [scanRules, flattenRules, List.find?_append, find?_map_pat]
    cases hfp : firstPat pats lower with
    | some p => simp [Option.orElse]
    | none => simp [Option.orElse, ih]

theorem suggest_field_mapping_spec_eq (field_name field_type : String) :
    suggest_field_mapping field_name field_type =
      suggestFieldMappingSpec field_name field_type := by
  unfold suggest_field_mapping suggestFieldMappingSpec
  rw [scanRules_eq_find?]
  cases (flattenRules FIELD_MAPPING_RULES).find? (fun sp => reSearch sp.2 (toLowerStr field_name)) with
  | some sp => rfl
  | none =>
    by_cases h1 : field_type = "multipleRecordLinks"
    · simp [fallbackTable, List.find?, h1]
    · by_cases h2 : field_type = "url"
      · simp [fallbackTable, List.find?, h1, h2]
      · by_cases h3 : field_type = "email" <;>
          simp [fallbackTable, List.find?, h1, h2, h3]

/-! ### The record migration pipeline (src/create_test_pubs.py, lines 250–488)

The PubPub HTTP API is abstracted as an oracle `create : PubData → Option
String`: `some id` is a 2xx response minting `id`, `none` is any failure
(the Python code catches the exception, logs, and returns `None`).  The
repeated `datetime.now()` timestamp is an oracle `tsOf : Nat → String`
indexed by the number of records built so far.  Every POST/PATCH the script
issues is reified as an `Event`. -/

/-- The community slug, hardcoded to `"rrid"` in src/create_test_pubs.py. -/
def COMMUNITY_SLUG : String := "rrid"

/-- An Airtable field descriptor `{name, type}` as stored in the cached
mappings file. -/
structure FieldInfo where
  name : String
  type : String
deriving DecidableEq, Repr

/-- An Airtable record: id plus `fields` dict (an absent field and a field
stored as `None` are both read back as `None` by `record.get`). -/
structure AirtableRecord where
  id : String
  fields : List (String × Value)
deriving DecidableEq, Repr

/-- One table's entry of the cached mappings: its field descriptors and the
(mutable) `field_mappings` cache. -/
structure TableMapping where
  fields : List (String × FieldInfo)
  field_mappings : List (String × Mapping)
deriving DecidableEq, Repr

/-- A PubPub publication type `{id, name}`. -/
structure PubType where
  id : String
  name : String
deriving DecidableEq, Repr

/-- `TABLE_TYPE_MAPPING` of src/create_test_pubs.py lines 40–54. -/
def TABLE_TYPE_MAPPING : List (String × List String) :=
  [ ("preprint", ["preprint", "article", "manuscript", "paper", "publication"]),
    ("review", ["review", "referee", "evaluation", "assessment"]) ]

/-- Inner lookup of `suggest_pub_type`: first pub type whose lowercased name
equals the rule's type name. -/
def findPubTypeByName : List PubType → String → Option String
  | [], _ => none
  | pt :: rest, type_name =>
    if toLowerStr pt.name = type_name then some pt.id
    else findPubTypeByName rest type_name

/-- The `for pattern in patterns` loop of `suggest_pub_type`: a matching
pattern only returns when a pub type with the rule's name exists, otherwise
scanning continues. -/
def patScanTypes (type_name : String) (lower : String) (pub_types : List PubType) :
    List String → Option String
  | [] => none
  | p :: ps =>
    if reSearch p lower then
      match findPubTypeByName pub_types type_name with
      | some tid => some tid
      | none => patScanTypes type_name lower pub_types ps
    else patScanTypes type_name lower pub_types ps

/-- The `for type_name, patterns in TABLE_TYPE_MAPPING.items()` loop. -/
def typeScan (lower : String) (pub_types : List PubType) :
    List (String × List String) → Option String
  | [] => none
  | (tn, pats) :: rest =>
    match patScanTypes tn lower pub_types pats with
    | some tid => some tid
    | none => typeScan lower pub_types rest

/-- `suggest_pub_type(table_name, record, pub_types)` of
src/create_test_pubs.py lines 250–264 (the record argument is unused by the
source, matching is on the table name; default is the first pub type). -/
def suggest_pub_type (table_name : String) (_record : AirtableRecord)
    (pub_types : List PubType) : Option String :=
  match typeScan (toLowerStr table_name) pub_types TABLE_TYPE_MAPPING with
  | some tid => some tid
  | none => pub_types.head?.map (fun pt => pt.id)

/-- Characters the slug keeps: `[a-z0-9-]`. -/
def isSlugChar (c : Char) : Bool :=
  ('a' ≤ c && c ≤ 'z') || ('0' ≤ c && c ≤ '9') || c = '-'

/-- `re.sub(r'[^a-z0-9-]', '', title.lower().replace(" ", "-"))` of
src/create_test_pubs.py line 378, as the character-wise pipeline it is:
lowercase each character, map spaces to dashes, drop everything outside
`[a-z0-9-]`. -/
def slugify (title : String) : String :=
  String.mk ((((title.toList).map Char.toLower).map
    (fun c => if c = ' ' then '-' else c)).filter isSlugChar)

/-- The state threaded through the first pass of `create_pub_from_record`:
the `values` dict, the `relations` accumulator, and the per-table
`field_mappings` cache (mutated in place by the source). -/
structure PassState where
  values : List (String × Value)
  relations : List Value
  cache : List (String × Mapping)
deriving DecidableEq, Repr

/-- The mapped-field body of the first pass: coerce the value, then either
extend `relations` (when the mapping's target is `relations`) or write
`values["rrid:<field>"]`. -/
def applyMapping (st : PassState) (cache' : List (String × Mapping)) (m : Mapping)
    (fv : Value) (ftype : String) : PassState :=
  let formatted := format_field_valueT fv ftype
  let asElems : Value → List Value := fun v =>
    match v with
    | .list vs => vs
    | v => [v]
  if m.pubpub_field = "relations" then
    { st with
      cache := cache'
      relations := st.relations ++ asElems formatted }
  else
    { st with
      cache := cache'
      values := dictSet st.values (COMMUNITY_SLUG ++ ":" ++ m.pubpub_field) formatted }

/-- One iteration of the first-pass loop of `create_pub_from_record`
(src/create_test_pubs.py lines 309–330): skip absent/`None` values, use the
cached mapping or compute and cache a suggested one, drop the field when
neither exists. -/
def processField (record : AirtableRecord) (st : PassState) (fid : String)
    (info : FieldInfo) : PassState :=
  match lookupAssoc record.fields fid with
  | none => st
  | some fv =>
    if fv = Value.null then st
    else
      match lookupAssoc st.cache fid with
      | some m => applyMapping st st.cache m fv info.type
      | none =>
        match suggest_field_mapping info.name info.type with
        | some m => applyMapping st (dictSet st.cache fid m) m fv info.type
        | none => st

/-- The whole first pass over the table's field descriptors. -/
def firstPass (record : AirtableRecord) :
    List (String × FieldInfo) → PassState → PassState
  | [], st => st
  | (fid, info) :: rest, st => firstPass record rest (processField record st fid info)

/-- `title_candidates` of src/create_test_pubs.py line 341. -/
def TITLE_CANDIDATES : List String := ["Name", "Title", "Subject", "ID"]

/-- The fallback title scan (lines 340–347): first candidate-named field
with a truthy value, stringified. -/
def findTitleCandidate (record : AirtableRecord) :
    List (String × FieldInfo) → Option String
  | [] => none
  | (fid, info) :: rest =>
    if TITLE_CANDIDATES.contains info.name then
      match lookupAssoc record.fields fid with
      | some v =>
        if pyTruthy v then some (pyStr v) else findTitleCandidate record rest
      | none => findTitleCandidate record rest
    else findTitleCandidate record rest

/-- Title resolution before the timestamp is appended (lines 332–352):
mapped title value if truthy, else first truthy candidate field, else the
synthesized `"<table> Record <id>"`. -/
def resolveTitleStr (values : List (String × Value)) (fields : List (String × FieldInfo))
    (record : AirtableRecord) (table_name : String) : String :=
  let t0 : Value := (lookupAssoc values (COMMUNITY_SLUG ++ ":title")).getD Value.null
  let t1 : Value :=
    if pyTruthy t0 then t0
    else
      match findTitleCandidate record fields with
      | some s => Value.str s
      | none => t0
  if pyTruthy t1 then pyStr t1
  else table_name ++ " Record " ++ record.id

/-- The description-building loop (lines 364–371): start from
`"Record from <table>"` and append up to three truthy `name: value` parts. -/
def descLoop (record : AirtableRecord) :
    List (String × FieldInfo) → List String → List String
  | [], parts => parts
  | (fid, info) :: rest, parts =>
    let v := (lookupAssoc record.fields fid).getD Value.null
    if pyTruthy v && parts.length < 4 then
      descLoop record rest (parts ++ [info.name ++ ": " ++ pyStr v])
    else descLoop record rest parts

/-- Lines 362–373: add a synthesized description unless one is present. -/
def ensureDescription (values : List (String × Value)) (fields : List (String × FieldInfo))
    (record : AirtableRecord) (table_name : String) : List (String × Value) :=
  if (lookupAssoc values (COMMUNITY_SLUG ++ ":description")).isSome then values
  else
    dictSet values (COMMUNITY_SLUG ++ ":description")
      (.str (intercalateStr " | "
        (descLoop record fields ["Record from " ++ table_name])))

/-- The JSON body POSTed to `/pubs` (src/create_test_pubs.py lines 376–384). -/
structure PubData where
  title : String
  slug : String
  description : Value
  isPublic : Bool
  pubTypeId : String
  communityId : String
  values : List (String × Value)
deriving DecidableEq, Repr

/-- The pure part of `create_pub_from_record` (lines 291–384): everything up
to the POST.  Returns the pub payload, the collected relation ids, and the
updated `field_mappings` cache; `none` when no pub type is available (the
source's early return). -/
def build_pub_data (pub_types : List PubType) (table_name : String)
    (record : AirtableRecord) (tm : TableMapping) (ts : String) :
    Option (PubData × List Value × List (String × Mapping)) :=
  match suggest_pub_type table_name record pub_types with
  | none => none
  | some pub_type_id =>
    let p := firstPass record tm.fields
      { values := [], relations := [], cache := tm.field_mappings }
    let titleStr := resolveTitleStr p.values tm.fields record table_name
    let title := titleStr ++ " [" ++ ts ++ "]"
    let values1 := dictSet p.values (COMMUNITY_SLUG ++ ":title") (.str title)
    let values2 := ensureDescription values1 tm.fields record table_name
    some ({ title := title,
            slug := slugify title,
            description := (lookupAssoc values2 (COMMUNITY_SLUG ++ ":description")).getD
              (.str ("Publication from " ++ table_name)),
            isPublic := true,
            pubTypeId := pub_type_id,
            communityId := COMMUNITY_SLUG,
            values := values2 }, p.relations, p.cache)

/-- `create_pub_from_record` (lines 291–416): build the payload, POST it via
the oracle; `none` models both the early no-pub-type return and the caught
request exception.  The updated cache is returned alongside, as the source
mutates it in place. -/
def create_pub_from_record (create : PubData → Option String) (pub_types : List PubType)
    (table_name : String) (record : AirtableRecord) (tm : TableMapping) (ts : String) :
    Option (String × PubData × List Value) × List (String × Mapping) :=
  match build_pub_data pub_types table_name record tm ts with
  | none => (none, tm.field_mappings)
  | some (pd, rels, cache') =>
    match create pd with
    | some pid => (some (pid, pd, rels), cache')
    | none => (none, cache')

/-- A write operation issued against the target API during a run.
`relationUpdate pubId ids` stands for
`PATCH /pubs/<pubId>/relations {"rrid:related": [{"relatedPubId": id} …]}`
as built by `update_pub_relations` (lines 418–439). -/
inductive Event where
  | createPub (table : String) (recordId : String) (slug : String) (result : Option String)
  | relationUpdate (pubId : String) (relatedIds : List Value)
deriving DecidableEq, Repr

/-- Accumulated state of the creation phase of `main`: the operation trace,
`created_pubs` ids, `relations_to_update`, and the timestamp-oracle index. -/
structure Phase1State where
  trace : List Event
  created : List String
  queue : List (String × List Value)
  counter : Nat
deriving DecidableEq, Repr

/-- The `for record in records` loop of `main` (lines 462–467): one
creation attempt per record; a successful creation is recorded, and its
non-empty relation list queued for the later link phase. -/
def runRecords (create : PubData → Option String) (pub_types : List PubType)
    (tsOf : Nat → String) (table_name : String) :
    List AirtableRecord → TableMapping → Phase1State → TableMapping × Phase1State
  | [], tm, st => (tm, st)
  | r :: rs, tm, st =>
    match build_pub_data pub_types table_name r tm (tsOf st.counter) with
    | none => runRecords create pub_types tsOf table_name rs tm st
    | some (pd, rels, cache') =>
      let tm' := { tm with field_mappings := cache' }
      match create pd with
      | some pid =>
        runRecords create pub_types tsOf table_name rs tm'
          { trace := st.trace ++ [.createPub table_name r.id pd.slug (some pid)]
            created := st.created ++ [pid]
            queue := if rels.isEmpty then st.queue else st.queue ++ [(pid, rels)]
            counter := st.counter + 1 }
      | none =>
        runRecords create pub_types tsOf table_name rs tm'
          { st with
            trace := st.trace ++ [.createPub table_name r.id pd.slug none]
            counter := st.counter + 1 }

/-- The `for table_name, records in sample_data.items()` loop of `main`
(lines 459–467); tables absent from the mappings are skipped, and the
in-place cache mutation is written back. -/
def runTables (create : PubData → Option String) (pub_types : List PubType)
    (tsOf : Nat → String) :
    List (String × List AirtableRecord) → List (String × TableMapping) →
      Phase1State → Phase1State
  | [], _, st => st
  | (tn, records) :: rest, mappings, st =>
    match lookupAssoc mappings tn with
    | none => runTables create pub_types tsOf rest mappings st
    | some tm =>
      let (tm', st') := runRecords create pub_types tsOf tn records tm st
      runTables create pub_types tsOf rest (dictSet mappings tn tm') st'

/-- Result of a whole run of `main`. -/
structure RunResult where
  trace : List Event
  created : List String
deriving DecidableEq, Repr

/-- `main` of src/create_test_pubs.py lines 441–485: the creation loop over
all tables, then — only after it finishes — one `update_pub_relations`
PATCH per queued `(pub_id, related_ids)` pair, in queue order. -/
def runMain (create : PubData → Option String) (pub_types : List PubType)
    (mappings : List (String × TableMapping))
    (sample_data : List (String × List AirtableRecord)) (tsOf : Nat → String) :
    RunResult :=
  let st := runTables create pub_types tsOf sample_data mappings
    { trace := [], created := [], queue := [], counter := 0 }
  { trace := st.trace ++ st.queue.map (fun q => Event.relationUpdate q.1 q.2)
    created := st.created }

/-! ### Configuration transfer

Two implementations live in the repository: `transfer_pub_types` /
`transfer_stages` / `transfer_fields` of src/transfer_config_and_data.py,
which POST every source object unconditionally, and the
`transfer_pub_types` / `transfer_stages` of src/improved_transfer.py, which
first fetch the existing target objects and match them by exact name.  The
target store is `TargetConfig`; the server mints ids deterministically from
a counter; whether a POST for a given object name succeeds is an oracle
`ok : String → Bool` (the improved engine's branches on
`response.status_code`). -/

/-- A source pub type as fetched from the source community. -/
structure SrcPubType where
  id : String
  name : String
deriving DecidableEq, Repr

/-- A source stage with its `moveConstraints` (ids of constraint stages). -/
structure SrcStage where
  id : String
  name : String
  moveConstraints : List String
deriving DecidableEq, Repr

/-- A source custom field (`pubType` is its owning type id, possibly absent). -/
structure SrcField where
  name : String
  pubType : Option String
deriving DecidableEq, Repr

/-- A target object as listed by the target API: id and name. -/
structure TargetNamed where
  id : String
  name : String
deriving DecidableEq, Repr

/-- The target community's configuration state. -/
structure TargetConfig where
  types : List TargetNamed
  stages : List TargetNamed
  counter : Nat
deriving DecidableEq, Repr

/-- The id the target server mints for the n-th successful creation. -/
def freshId (n : Nat) : String := "tgt" ++ toString n

/-- A configuration write issued against the target API. -/
inductive ConfigEvent where
  | createType (name : String)
  | createStage (name : String)
  | putMoveConstraints (stageId : String) (constraintIds : List String)
  | createField (name : String)
deriving DecidableEq, Repr

/-- `transfer_pub_types` of src/transfer_config_and_data.py lines 114–146:
POST every source type unconditionally; a 200 response records the id
mapping, a failure only logs. -/
def transferTypesBasic (ok : String → Bool) :
    List SrcPubType → TargetConfig →
      TargetConfig × List (String × String) × List ConfigEvent
  | [], st => (st, [], [])
  | pt :: rest, st =>
    if ok pt.name then
      let nid := freshId st.counter
      let st1 := { st with
        types := st.types ++ [{ id := nid, name := pt.name }]
        counter := st.counter + 1 }
      let r := transferTypesBasic ok rest st1
      (r.1, (pt.id, nid) :: r.2.1, .createType pt.name :: r.2.2)
    else
      let r := transferTypesBasic ok rest st
      (r.1, r.2.1, .createType pt.name :: r.2.2)

/-- The stage-creation loop of `transfer_stages`
(src/transfer_config_and_data.py lines 154–177). -/
def stageCreateLoopBasic (ok : String → Bool) :
    List SrcStage → TargetConfig →
      TargetConfig × List (String × String) × List ConfigEvent
  | [], st => (st, [], [])
  | s :: rest, st =>
    if ok s.name then
      let nid := freshId st.counter
      let st1 := { st with
        stages := st.stages ++ [{ id := nid, name := s.name }]
        counter := st.counter + 1 }
      let r := stageCreateLoopBasic ok rest st1
      (r.1, (s.id, nid) :: r.2.1, .createStage s.name :: r.2.2)
    else
      let r := stageCreateLoopBasic ok rest st
      (r.1, r.2.1, .createStage s.name :: r.2.2)

/-- The move-constraint loop (src/transfer_config_and_data.py lines 181–212,
identical to `configure_move_constraints` of src/improved_transfer.py):
skip stages without constraints or without a target id; drop individually
each constraint id missing from the mapping; PUT only non-empty lists. -/
def mcLoop (mapping : List (String × String)) : List SrcStage → List ConfigEvent
  | [] => []
  | s :: rest =>
    if s.moveConstraints.isEmpty then mcLoop mapping rest
    else
      match lookupAssoc mapping s.id with
      | none => mcLoop mapping rest
      | some tid =>
        let cs := s.moveConstraints.filterMap (fun cid => lookupAssoc mapping cid)
        if cs.isEmpty then mcLoop mapping rest
        else .putMoveConstraints tid cs :: mcLoop mapping rest

/-- `transfer_stages` of src/transfer_config_and_data.py lines 148–214:
create every stage, then configure move constraints — both inside this one
function, creations strictly first. -/
def transfer_stages_basic (ok : String → Bool) (stages : List SrcStage)
    (st : TargetConfig) :
    TargetConfig × List (String × String) × List ConfigEvent :=
  let r := stageCreateLoopBasic ok stages st
  (r.1, r.2.1, r.2.2 ++ mcLoop r.2.1 stages)

/-- `transfer_fields` of src/transfer_config_and_data.py lines 216–258:
skip fields without a `pubType` or whose type id was not mapped, POST the
rest. -/
def transfer_fields_basic (type_id_mapping : List (String × String)) :
    List SrcField → List ConfigEvent
  | [] => []
  | f :: rest =>
    match f.pubType with
    | none => transfer_fields_basic type_id_mapping rest
    | some ptid =>
      match lookupAssoc type_id_mapping ptid with
      | none => transfer_fields_basic type_id_mapping rest
      | some _ => .createField f.name :: transfer_fields_basic type_id_mapping rest

/-- Steps 3–5 of `main` of src/transfer_config_and_data.py (lines 420–427):
the configuration writes of one run, in issue order — `transfer_pub_types`,
then `transfer_stages` (stage creations then move-constraints), then
`transfer_fields`. -/
def configTraceBasic (ok : String → Bool) (pts : List SrcPubType)
    (stages : List SrcStage) (fs : List SrcField) (st : TargetConfig) :
    List ConfigEvent :=
  let t := transferTypesBasic ok pts st
  let s := transfer_stages_basic ok stages t.1
  t.2.2 ++ s.2.2 ++ transfer_fields_basic t.2.1 fs

/-- `{t["name"]: t for t in target_types}` — the name-keyed dict of existing
target objects, later entries overriding earlier (Python dict semantics). -/
def buildNameDict (objs : List TargetNamed) : List (String × TargetNamed) :=
  objs.foldl (fun m t => dictSet m t.name t) []

/-- The per-type loop of `transfer_pub_types` of src/improved_transfer.py
lines 127–165: a source type whose name already exists in the (once-fetched)
target list reuses the existing id; otherwise it is POSTed, recording the
mapping only on success. -/
def transferTypesImproved (ok : String → Bool)
    (existing : List (String × TargetNamed)) :
    List SrcPubType → TargetConfig → TargetConfig × List (String × String)
  | [], st => (st, [])
  | pt :: rest, st =>
    match lookupAssoc existing pt.name with
    | some ex =>
      let r := transferTypesImproved ok existing rest st
      (r.1, (pt.id, ex.id) :: r.2)
    | none =>
      if ok pt.name then
        let nid := freshId st.counter
        let st1 := { st with
          types := st.types ++ [{ id := nid, name := pt.name }]
          counter := st.counter + 1 }
        let r := transferTypesImproved ok existing rest st1
        (r.1, (pt.id, nid) :: r.2)
      else
        transferTypesImproved ok existing rest st

/-- `transfer_pub_types` of src/improved_transfer.py lines 106–167: fetch
the existing types once, then run the loop against that snapshot. -/
def transfer_pub_types_improved (ok : String → Bool) (pts : List SrcPubType)
    (st : TargetConfig) : TargetConfig × List (String × String) :=
  transferTypesImproved ok (buildNameDict st.types) pts st

/-- The per-stage loop of `transfer_stages` of src/improved_transfer.py
lines 190–228, same discipline as the types loop. -/
def transferStagesImproved (ok : String → Bool)
    (existing : List (String × TargetNamed)) :
    List SrcStage → TargetConfig → TargetConfig × List (String × String)
  | [], st => (st, [])
  | s :: rest, st =>
    match lookupAssoc existing s.name with
    | some ex =>
      let r := transferStagesImproved ok existing rest st
      (r.1, (s.id, ex.id) :: r.2)
    | none =>
      if ok s.name then
        let nid := freshId st.counter
        let st1 := { st with
          stages := st.stages ++ [{ id := nid, name := s.name }]
          counter := st.counter + 1 }
        let r := transferStagesImproved ok existing rest st1
        (r.1, (s.id, nid) :: r.2)
      else
        transferStagesImproved ok existing rest st

/-- `transfer_stages` of src/improved_transfer.py lines 169–234: fetch
existing stages once, run the loop, then (when the mapping is non-empty)
configure move constraints — PUTs that do not alter the type/stage store. -/
def transfer_stages_improved (ok : String → Bool) (stages : List SrcStage)
    (st : TargetConfig) :
    TargetConfig × List (String × String) × List ConfigEvent :=
  let r := transferStagesImproved ok (buildNameDict st.stages) stages st
  (r.1, r.2, if r.2.isEmpty then [] else mcLoop r.2 stages)

/-- One run of the improved configuration engine (steps 3–4 of `main` of
src/improved_transfer.py lines 350–354), restricted to its effect on the
target's type/stage store (`create_test_pubs` of that file creates pubs,
not types or stages). -/
def configEngineRunImproved (ok : String → Bool) (pts : List SrcPubType)
    (stages : List SrcStage) (st : TargetConfig) : TargetConfig :=
  let st1 := (transfer_pub_types_improved ok pts st).1
  (transfer_stages_improved ok stages st1).1

/-! ### Shared helper lemmas for the claim theorems -/

/-- Phase of a data-run event: creations before relation updates. -/
def runPhase : Event → Nat
  | .createPub _ _ _ _ => 0
  | .relationUpdate _ _ => 1

/-- Phase of a configuration event, in the order the basic engine issues
them: type creations, stage creations, move-constraint PUTs, field
creations. -/
def configPhase : ConfigEvent → Nat
  | .createType _ => 0
  | .createStage _ => 1
  | .putMoveConstraints _ _ => 2
  | .createField _ => 3

theorem pairwise_le_of_const {l : List Nat} {c : Nat} (h : ∀ x ∈ l, x = c) :
    l.Pairwise (· ≤ ·) := by
  induction l with
  | nil => exact List.Pairwise.nil
  | cons a rest ih =>
    refine List.Pairwise.cons (fun b hb => ?_) (ih (fun x hx => h x (List.mem_cons_of_mem a hx)))
    rw [h a (List.mem_cons_self a rest), h b (List.mem_cons_of_mem a hb)]

theorem pairwise_le_append {l₁ l₂ : List Nat}
    (p1 : l₁.Pairwise (· ≤ ·)) (p2 : l₂.Pairwise (· ≤ ·))
    (h : ∀ x ∈ l₁, ∀ y ∈ l₂, x ≤ y) : (l₁ ++ l₂).Pairwise (· ≤ ·) :=
  List.pairwise_append.mpr ⟨p1, p2, h⟩

/-- The date branch of the coercer, isolated: parse success yields the
normalized midnight ISO datetime, failure passes the value through. -/
theorem format_date_branch (v : Value) :
    format_field_value v "date" =
      match pyStrptimeYMD v with
      | .ok (y, m, d) => .ok (.str (isoDateTimeOf y m d))
      | .error _ => .ok v := by
  cases v <;> rfl

/-! ### C10 — `None` passes through the coercer unchanged -/

/-- C10: for every field type accepted by the value coercer, coercing the
value `None` returns `None` (and in particular never a type default): the
`value is None` guard is the first check of `format_field_value`. -/
theorem C10_null_passthrough :
    ∀ field_type : String, format_field_value Value.null field_type = .ok Value.null :=
  fun _ => rfl

/-! ### C7 — the coercer never raises -/

/-- C7: for every raw value and every source field type, the value coercer
never raises: every fallible primitive it calls (`float`, `strptime`,
`fromisoformat`) is wrapped in a `try/except` whose handler returns, so the
result is always `Except.ok`. -/
theorem C7_coerce_never_raises :
    ∀ (value : Value) (field_type : String),
      ∃ r, format_field_value value field_type = Except.ok r :=
  fun v t => ⟨format_field_valueT v t, format_field_value_ok v t⟩

/-! ### C8 — date coercion -/

/-- C8 counterexample: coercing the string `"2022-02-10"` with source type
`date` returns the datetime string `"2022-02-10T00:00:00"` (the result of
`datetime.isoformat()`), which is not the string `"2022-02-10"` — so the
result, read as a value, is not equal to `"2022-02-10"` as the claim
states. -/
theorem C8_counterexample :
    format_field_valueT (.str "2022-02-10") "date" = .str "2022-02-10T00:00:00"
    ∧ format_field_valueT (.str "2022-02-10") "date" ≠ .str "2022-02-10" := by
  constructor
  · rfl
  · decide

/-- C8 (amended): coercing `"2022-02-10"` with source type `date` returns
the normalized ISO datetime `"2022-02-10T00:00:00"`, whose date component
(the first ten characters) equals `"2022-02-10"`; coercing the unparsable
`"N/A"` returns `"N/A"` unchanged; generally, a value parsing as
`YYYY-MM-DD` is emitted as the normalized midnight ISO datetime and an
unparsable date value passes through unchanged. -/
theorem C8_date_coercion :
    format_field_valueT (.str "2022-02-10") "date" = .str "2022-02-10T00:00:00"
    ∧ (format_field_valueT (.str "2022-02-10") "date"
        = .str ("2022-02-10".append "T00:00:00"))
    ∧ format_field_valueT (.str "N/A") "date" = .str "N/A"
    ∧ (∀ s y m d, parseDateYMD s = some (y, m, d) →
        format_field_valueT (.str s) "date" = .str (isoDateTimeOf y m d))
    ∧ (∀ s, parseDateYMD s = none → format_field_valueT (.str s) "date" = .str s) := by
  refine ⟨rfl, rfl, rfl, ?_, ?_⟩
  · intro s y m d h
    unfold format_field_valueT
    rw [format_date_branch]
    simp [pyStrptimeYMD, h]
  · intro s h
    unfold format_field_valueT
    rw [format_date_branch]
    simp [pyStrptimeYMD, h]

/-- C8 witness: the general clauses of `C8_date_coercion` applied at fresh
concrete inputs. -/
theorem C8_date_coercion_witness :
    format_field_valueT (.str "1999-12-31") "date" = .str "1999-12-31T00:00:00"
    ∧ format_field_valueT (.str "12/31/1999") "date" = .str "12/31/1999" :=
  ⟨C8_date_coercion.2.2.2.1 "1999-12-31" 1999 12 31 (by decide),
   C8_date_coercion.2.2.2.2 "12/31/1999" (by decide)⟩

/-! ### C6 — the mapping suggester algorithm -/

/-- C6: the mapping suggester lowercases the name and scans the rule table
in declaration order with the first matching rule winning, returns high
confidence exactly when the matched pattern equals the full lowercased name
and medium otherwise, falls back to the fixed type table
(cross-table-link → relations, url → url, email → email) when no name rule
matches, and returns null otherwise — stated as extensional equality with
`suggestFieldMappingSpec`, the independently structured transcription of the
spec's algorithm (which makes declaration order, not confidence, the
tie-break); and a field whose mapping is null is dropped from the output:
the first pass leaves values, relations and cache untouched. -/
theorem C6_mapping_suggester :
    (∀ field_name field_type : String,
      suggest_field_mapping field_name field_type
        = suggestFieldMappingSpec field_name field_type)
    ∧ (∀ (record : AirtableRecord) (st : PassState) (fid : String) (info : FieldInfo),
        lookupAssoc st.cache fid = none →
        suggest_field_mapping info.name info.type = none →
        processField record st fid info = st) := by
  constructor
  · exact suggest_field_mapping_spec_eq
  · intro record st fid info hc hs
    unfold processField
    cases hv : lookupAssoc record.fields fid with
    | none => rfl
    | some fv =>
      by_cases hnull : fv = Value.null
      · simp [hnull]
      · simp [hnull, hc, hs]

/-- C6 witness: an unmapped field (`"zzz"` of type `"barcode"`) is dropped
without touching the pass state, and the suggester agrees with the spec
algorithm at a concrete input. -/
theorem C6_mapping_suggester_witness :
    processField { id := "w", fields := [("f9", Value.str "x")] }
        { values := [], relations := [], cache := [] } "f9"
        { name := "zzz", type := "barcode" }
      = { values := [], relations := [], cache := [] }
    ∧ suggest_field_mapping "Reviewer Email" "email"
        = suggestFieldMappingSpec "Reviewer Email" "email" :=
  ⟨C6_mapping_suggester.2 { id := "w", fields := [("f9", Value.str "x")] }
      { values := [], relations := [], cache := [] } "f9"
      { name := "zzz", type := "barcode" } (by decide) (by decide),
   C6_mapping_suggester.1 "Reviewer Email" "email"⟩

/-! ### C5 — cross-table links and the relation queue -/

/-- A field of type `multipleRecordLinks` always receives a mapping: the
name-rule scan may return anything, but the type fallback guarantees
`relations` when it returns nothing. -/
theorem suggest_mRL_isSome (name : String) :
    ∃ m, suggest_field_mapping name "multipleRecordLinks" = some m := by
  unfold suggest_field_mapping
  cases scanRules FIELD_MAPPING_RULES (toLowerStr name) with
  | some m => exact ⟨m, rfl⟩
  | none => exact ⟨⟨"relations", "medium"⟩, rfl⟩

/-- C5 counterexample: the cross-table-link field named `"Status"` matches
the `status` name rule before the type fallback is consulted, so its list of
linked record ids is written into the created entity's field values
(`values["rrid:status"]`) and no relation intent is emitted. -/
theorem C5_counterexample :
    processField { id := "recX", fields := [("f1", Value.list [Value.str "recY"])] }
        { values := [], relations := [], cache := [] } "f1"
        { name := "Status", type := "multipleRecordLinks" }
      = { values := [("rrid:status", Value.list [Value.str "recY"])]
          relations := []
          cache := [("f1", { pubpub_field := "status", confidence := "high" })] } := by
  decide

/-- C5 (amended): a present, non-null cross-table-link field with no cached
mapping always receives some mapping (the type fallback guarantees
`relations` when no name rule matches); its value is deferred to the
relation queue and kept out of field values exactly when that mapping's
target is `relations` — a cross-table-link field whose name matches a
non-`relations` name rule is instead written into field values and not
deferred. -/
theorem C5_record_links_deferred :
    ∀ (record : AirtableRecord) (st : PassState) (fid : String) (info : FieldInfo) (v : Value),
      info.type = "multipleRecordLinks" →
      lookupAssoc st.cache fid = none →
      lookupAssoc record.fields fid = some v →
      v ≠ Value.null →
      ∃ m, suggest_field_mapping info.name info.type = some m ∧
        ((m.pubpub_field = "relations" ∧
          (processField record st fid info).values = st.values ∧
          (processField record st fid info).relations
            = st.relations ++ (match format_field_valueT v info.type with
                               | .list vs => vs
                               | w => [w]))
         ∨ (m.pubpub_field ≠ "relations" ∧
            (processField record st fid info).relations = st.relations ∧
            (processField record st fid info).values
              = dictSet st.values (COMMUNITY_SLUG ++ ":" ++ m.pubpub_field)
                  (format_field_valueT v info.type))) := by
  intro record st fid info v htype hc hv hnn
  obtain ⟨m, hm⟩ := suggest_mRL_isSome info.name
  rw [← htype] at hm
  refine ⟨m, hm, ?_⟩
  have h1 : processField record st fid info =
      if v = Value.null then st
      else
        match lookupAssoc st.cache fid with
        | some m => applyMapping st st.cache m v info.type
        | none =>
          match suggest_field_mapping info.name info.type with
          | some m => applyMapping st (dictSet st.cache fid m) m v info.type
          | none => st := by
    unfold processField
    rw [hv]
  have hpf : processField record st fid info
      = applyMapping st (dictSet st.cache fid m) m v info.type := by
    rw [h1, if_neg hnn, hc, hm]
  by_cases hrel : m.pubpub_field = "relations"
  · left
    refine ⟨hrel, ?_, ?_⟩ <;>
      simp only [hpf, applyMapping, if_pos hrel]
  · right
    refine ⟨hrel, ?_, ?_⟩ <;>
      simp only [hpf, applyMapping, if_neg hrel]

/-- C5 witness: the theorem applied to the field `"Related Items"`, whose
name matches the `relations` rule — the linked id is queued as a relation
intent and the field values stay empty. -/
theorem C5_record_links_deferred_witness :
    ∃ m, suggest_field_mapping "Related Items" "multipleRecordLinks" = some m ∧
      ((m.pubpub_field = "relations" ∧
        (processField { id := "recX", fields := [("f1", Value.list [Value.str "recY"])] }
            { values := [], relations := [], cache := [] } "f1"
            { name := "Related Items", type := "multipleRecordLinks" }).values = [] ∧
        (processField { id := "recX", fields := [("f1", Value.list [Value.str "recY"])] }
            { values := [], relations := [], cache := [] } "f1"
            { name := "Related Items", type := "multipleRecordLinks" }).relations
          = [] ++ (match format_field_valueT (Value.list [Value.str "recY"])
                      "multipleRecordLinks" with
                   | .list vs => vs
                   | w => [w]))
       ∨ (m.pubpub_field ≠ "relations" ∧
          (processField { id := "recX", fields := [("f1", Value.list [Value.str "recY"])] }
              { values := [], relations := [], cache := [] } "f1"
              { name := "Related Items", type := "multipleRecordLinks" }).relations = [] ∧
          (processField { id := "recX", fields := [("f1", Value.list [Value.str "recY"])] }
              { values := [], relations := [], cache := [] } "f1"
              { name := "Related Items", type := "multipleRecordLinks" }).values
            = dictSet [] (COMMUNITY_SLUG ++ ":" ++ m.pubpub_field)
                (format_field_valueT (Value.list [Value.str "recY"])
                  "multipleRecordLinks"))) :=
  C5_record_links_deferred
    { id := "recX", fields := [("f1", Value.list [Value.str "recY"])] }
    { values := [], relations := [], cache := [] } "f1"
    { name := "Related Items", type := "multipleRecordLinks" }
    (Value.list [Value.str "recY"]) rfl rfl (by decide) (by decide)

/-! ### C2 — creation barrier before link resolution -/

/-- Every event appended by the per-record creation loop is a `createPub`
POST: the loop never issues a relation update. -/
theorem runRecords_trace_phase (create : PubData → Option String)
    (pub_types : List PubType) (tsOf : Nat → String) (tn : String) :
    ∀ (rs : List AirtableRecord) (tm : TableMapping) (st : Phase1State),
      (∀ e ∈ st.trace, runPhase e = 0) →
      ∀ e ∈ (runRecords create pub_types tsOf tn rs tm st).2.trace, runPhase e = 0 := by
  intro rs
  induction rs with
  | nil => intro tm st h; exact h
  | cons r rest ih =>
    intro tm st h
    unfold runRecords
    cases hb : build_pub_data pub_types tn r tm (tsOf st.counter) with
    | none => exact ih tm st h
    | some pr =>
      obtain ⟨pd, rels, cache'⟩ := pr
      dsimp only
      cases hc : create pd with
      | some pid =>
        apply ih
        intro e he
        rcases List.mem_append.mp he with h1 | h2
        · exact h e h1
        · rw [List.mem_singleton.mp h2]; rfl
      | none =>
        apply ih
        intro e he
        rcases List.mem_append.mp he with h1 | h2
        · exact h e h1
        · rw [List.mem_singleton.mp h2]; rfl

/-- Every event in the whole creation phase of `main` is a `createPub`. -/
theorem runTables_trace_phase (create : PubData → Option String)
    (pub_types : List PubType) (tsOf : Nat → String) :
    ∀ (sd : List (String × List AirtableRecord))
      (mappings : List (String × TableMapping)) (st : Phase1State),
      (∀ e ∈ st.trace, runPhase e = 0) →
      ∀ e ∈ (runTables create pub_types tsOf sd mappings st).trace, runPhase e = 0 := by
  intro sd
  induction sd with
  | nil => intro mappings st h; exact h
  | cons p rest ih =>
    obtain ⟨tn, records⟩ := p
    intro mappings st h
    unfold runTables
    cases hm : lookupAssoc mappings tn with
    | none => exact ih mappings st h
    | some tm =>
      dsimp only
      rcases hr : runRecords create pub_types tsOf tn records tm st with ⟨tm2, st2⟩
      dsimp only
      have h2 := runRecords_trace_phase create pub_types tsOf tn records tm st h
      rw [hr] at h2
      exact ih (dictSet mappings tn tm2) st2 h2

/-- The events of the stage-creation loop of `transfer_stages`, in order:
one `createStage` POST per source stage, created or not. -/
theorem stageCreateLoop_events (ok : String → Bool) :
    ∀ (ss : List SrcStage) (st : TargetConfig),
      (stageCreateLoopBasic ok ss st).2.2
        = ss.map (fun s => ConfigEvent.createStage s.name) := by
  intro ss
  induction ss with
  | nil => intro st; rfl
  | cons s rest ih =>
    intro st
    unfold stageCreateLoopBasic
    by_cases hok : ok s.name = true
    · rw [if_pos hok]; simp [ih]
    · rw [if_neg hok]; simp [ih]

/-- The events of `transfer_pub_types` of src/transfer_config_and_data.py:
one `createType` POST per source type. -/
theorem transferTypesBasic_events (ok : String → Bool) :
    ∀ (pts : List SrcPubType) (st : TargetConfig),
      (transferTypesBasic ok pts st).2.2
        = pts.map (fun pt => ConfigEvent.createType pt.name) := by
  intro pts
  induction pts with
  | nil => intro st; rfl
  | cons pt rest ih =>
    intro st
    unfold transferTypesBasic
    by_cases hok : ok pt.name = true
    · rw [if_pos hok]; simp [ih]
    · rw [if_neg hok]; simp [ih]

/-- Every event of the move-constraint loop is a constraint PUT. -/
theorem mcLoop_phase (mapping : List (String × String)) :
    ∀ ss : List SrcStage, ∀ e ∈ mcLoop mapping ss, configPhase e = 2 := by
  intro ss
  induction ss with
  | nil => intro e he; simp [mcLoop] at he
  | cons s rest ih =>
    intro e he
    unfold mcLoop at he
    by_cases hmve : s.moveConstraints.isEmpty = true
    · rw [if_pos hmve] at he; exact ih e he
    · rw [if_neg hmve] at he
      cases hl : lookupAssoc mapping s.id with
      | none => rw [hl] at he; exact ih e he
      | some tid =>
        rw [hl] at he
        dsimp only at he
        by_cases hcs : (s.moveConstraints.filterMap
            (fun cid => lookupAssoc mapping cid)).isEmpty = true
        · rw [if_pos hcs] at he; exact ih e he
        · rw [if_neg hcs] at he
          rcases List.mem_cons.mp he with h1 | h2
          · rw [h1]; rfl
          · exact ih e h2

/-- Every event of `transfer_fields` is a field-creation POST. -/
theorem transfer_fields_phase (tmap : List (String × String)) :
    ∀ fs : List SrcField, ∀ e ∈ transfer_fields_basic tmap fs, configPhase e = 3 := by
  intro fs
  induction fs with
  | nil => intro e he; simp [transfer_fields_basic] at he
  | cons f rest ih =>
    intro e he
    unfold transfer_fields_basic at he
    cases hp : f.pubType with
    | none => rw [hp] at he; exact ih e he
    | some ptid =>
      rw [hp] at he
      dsimp only at he
      cases hl : lookupAssoc tmap ptid with
      | none => rw [hl] at he; exact ih e he
      | some tid =>
        rw [hl] at he
        dsimp only at he
        rcases List.mem_cons.mp he with h1 | h2
        · rw [h1]; rfl
        · exact ih e h2

/-- The trace of `transfer_stages` of src/transfer_config_and_data.py is
phase-monotone: all stage creations precede all move-constraint PUTs. -/
theorem transfer_stages_trace_pairwise (ok : String → Bool) (stages : List SrcStage)
    (st : TargetConfig) :
    (((transfer_stages_basic ok stages st).2.2).map configPhase).Pairwise (· ≤ ·) := by
  unfold transfer_stages_basic
  rw [List.map_append]
  apply pairwise_le_append
  · apply pairwise_le_of_const (c := 1)
    intro x hx
    rcases List.mem_map.mp hx with ⟨e, he, rfl⟩
    rw [stageCreateLoop_events] at he
    rcases List.mem_map.mp he with ⟨s, _, rfl⟩
    rfl
  · apply pairwise_le_of_const (c := 2)
    intro x hx
    rcases List.mem_map.mp hx with ⟨e, he, rfl⟩
    exact mcLoop_phase _ stages e he
  · intro x hx y hy
    rcases List.mem_map.mp hx with ⟨e, he, rfl⟩
    rcases List.mem_map.mp hy with ⟨f, hf, rfl⟩
    rw [stageCreateLoop_events] at he
    rcases List.mem_map.mp he with ⟨s, _, rfl⟩
    rw [mcLoop_phase _ stages f hf]
    exact Nat.le_succ 1

/-- C2: in every run, no link operation — a relation update in the data
migration, a move-constraint PUT in the stage transfer — is issued before
the corresponding creation phase has finished: in `main` of
src/create_test_pubs.py every `createPub` POST precedes every
`relationUpdate` PATCH, and in `transfer_stages` of
src/transfer_config_and_data.py every stage-creation POST precedes every
move-constraint PUT, both stated as monotonicity of the phase sequence of
the issued operation trace. -/
theorem C2_link_after_creation_barrier :
    (∀ (create : PubData → Option String) (pub_types : List PubType)
       (mappings : List (String × TableMapping))
       (sample_data : List (String × List AirtableRecord)) (tsOf : Nat → String),
      (((runMain create pub_types mappings sample_data tsOf).trace).map runPhase).Pairwise
        (· ≤ ·))
    ∧ (∀ (ok : String → Bool) (stages : List SrcStage) (st : TargetConfig),
        (((transfer_stages_basic ok stages st).2.2).map configPhase).Pairwise (· ≤ ·)) := by
  constructor
  · intro create pub_types mappings sample_data tsOf
    unfold runMain
    rw [List.map_append]
    apply pairwise_le_append
    · apply pairwise_le_of_const (c := 0)
      intro x hx
      rcases List.mem_map.mp hx with ⟨e, he, rfl⟩
      exact runTables_trace_phase create pub_types tsOf sample_data mappings
        { trace := [], created := [], queue := [], counter := 0 }
        (fun e he => absurd he (List.not_mem_nil e)) e he
    · apply pairwise_le_of_const (c := 1)
      intro x hx
      rcases List.mem_map.mp hx with ⟨e, he, rfl⟩
      rcases List.mem_map.mp he with ⟨q, _, rfl⟩
      rfl
    · intro x hx y hy
      rcases List.mem_map.mp hx with ⟨e, he, rfl⟩
      have h0 : runPhase e = 0 :=
        runTables_trace_phase create pub_types tsOf sample_data mappings
          { trace := [], created := [], queue := [], counter := 0 }
          (fun e he => absurd he (List.not_mem_nil e)) e he
      rw [h0]
      exact Nat.zero_le _
  · exact transfer_stages_trace_pairwise

/-! ### C9 — configuration dependency order -/

/-- Does some move-constraint PUT occur strictly before some field-creation
POST in the trace? -/
def mcPrecedesField : List ConfigEvent → Bool
  | [] => false
  | e :: rest =>
    (configPhase e = 2 && rest.any (fun f => configPhase f = 3))
      || mcPrecedesField rest

/-- Demo source configuration: one type, two stages with one move
constraint, one field owned by the type. -/
def demoTypes : List SrcPubType := [{ id := "srcT", name := "T" }]

/-- Demo stages: stage A constrains to stage B. -/
def demoStages : List SrcStage :=
  [ { id := "srcA", name := "A", moveConstraints := ["srcB"] },
    { id := "srcB", name := "B", moveConstraints := [] } ]

/-- Demo fields: one field owned by the demo type. -/
def demoFields : List SrcField := [{ name := "F", pubType := some "srcT" }]

/-- Empty target store. -/
def emptyTarget : TargetConfig := { types := [], stages := [], counter := 0 }

/-- C9 counterexample: running `main` of src/transfer_config_and_data.py on
the demo configuration issues the move-constraint PUT (inside
`transfer_stages`, step 4) before the field-creation POST
(`transfer_fields`, step 5): the trace is type, stage A, stage B,
move-constraints of A, field F — so a move-constraint call does precede a
field-creation call, contradicting the claimed strict order
types → stages → fields → move-constraints. -/
theorem C9_counterexample :
    configTraceBasic (fun _ => true) demoTypes demoStages demoFields emptyTarget
      = [ConfigEvent.createType "T", ConfigEvent.createStage "A",
         ConfigEvent.createStage "B", ConfigEvent.putMoveConstraints "tgt1" ["tgt2"],
         ConfigEvent.createField "F"]
    ∧ mcPrecedesField
        (configTraceBasic (fun _ => true) demoTypes demoStages demoFields emptyTarget)
        = true := by
  constructor
  · decide
  · decide

/-- C9 (amended): the configuration transfer issues its operations in the
dependency order types → stages → stage move-constraints → fields: the
phase sequence of the issued trace is monotone — every type creation
precedes every stage creation, every stage creation precedes every
move-constraint PUT, and every move-constraint PUT precedes every field
creation (fields still come after all type creations, as the dependency
argument of the spec requires, but before no move-constraint call). -/
theorem C9_config_transfer_order :
    ∀ (ok : String → Bool) (pts : List SrcPubType) (stages : List SrcStage)
      (fs : List SrcField) (st : TargetConfig),
      (((configTraceBasic ok pts stages fs st).map configPhase)).Pairwise (· ≤ ·) := by
  intro ok pts stages fs st
  unfold configTraceBasic
  rw [List.map_append, List.map_append]
  have hty : ∀ x ∈ ((transferTypesBasic ok pts st).2.2).map configPhase, x = 0 := by
    intro x hx
    rcases List.mem_map.mp hx with ⟨e, he, rfl⟩
    rw [transferTypesBasic_events] at he
    rcases List.mem_map.mp he with ⟨pt, _, rfl⟩
    rfl
  have hst : ∀ x ∈ ((transfer_stages_basic ok stages
      (transferTypesBasic ok pts st).1).2.2).map configPhase, x = 1 ∨ x = 2 := by
    intro x hx
    rcases List.mem_map.mp hx with ⟨e, he, rfl⟩
    unfold transfer_stages_basic at he
    rcases List.mem_append.mp he with h1 | h2
    · rw [stageCreateLoop_events] at h1
      rcases List.mem_map.mp h1 with ⟨s, _, rfl⟩
      exact Or.inl rfl
    · exact Or.inr (mcLoop_phase _ stages e h2)
  have hfd : ∀ x ∈ (transfer_fields_basic (transferTypesBasic ok pts st).2.1 fs).map
      configPhase, x = 3 := by
    intro x hx
    rcases List.mem_map.mp hx with ⟨e, he, rfl⟩
    exact transfer_fields_phase _ fs e he
  apply pairwise_le_append
  · apply pairwise_le_append
    · exact pairwise_le_of_const hty
    · exact transfer_stages_trace_pairwise ok stages (transferTypesBasic ok pts st).1
    · intro x hx y hy
      rw [hty x hx]
      exact Nat.zero_le _
  · exact pairwise_le_of_const hfd
  · intro x hx y hy
    rw [hfd y hy]
    rcases List.mem_append.mp hx with h1 | h1
    · rw [hty x h1]
      omega
    · rcases hst x h1 with h2 | h2 <;> rw [h2] <;> omega

/-! ### C3 — idempotent configuration re-runs -/

theorem lookup_buildNameDict_isSome (objs : List TargetNamed) (k : String) :
    (lookupAssoc (buildNameDict objs) k).isSome
      = objs.any (fun t => t.name = k) := by
  suffices h : ∀ m : List (String × TargetNamed),
      (lookupAssoc (objs.foldl (fun m t => dictSet m t.name t) m) k).isSome
        = ((lookupAssoc m k).isSome || objs.any (fun t => t.name = k)) by
    have h0 := h []
    simpa [buildNameDict, lookupAssoc] using h0
  induction objs with
  | nil => intro m; simp
  | cons t rest ih =>
    intro m
    simp only [List.foldl_cons, List.any_cons]
    rw [ih (dictSet m t.name t)]
    by_cases h : t.name = k
    · simp [lookupAssoc_dictSet, h]
    · simp [lookupAssoc_dictSet, h]

theorem transferTypesImproved_types_mono (ok : String → Bool)
    (existing : List (String × TargetNamed)) :
    ∀ (pts : List SrcPubType) (st : TargetConfig) (t : TargetNamed),
      t ∈ st.types → t ∈ (transferTypesImproved ok existing pts st).1.types := by
  intro pts
  induction pts with
  | nil => intro st t ht; exact ht
  | cons pt rest ih =>
    intro st t ht
    unfold transferTypesImproved
    cases h : lookupAssoc existing pt.name with
    | some ex => dsimp only; exact ih st t ht
    | none =>
      by_cases hok : ok pt.name = true
      · rw [if_pos hok]; dsimp only
        exact ih _ t (List.mem_append_left _ ht)
      · rw [if_neg hok]; exact ih st t ht

theorem transferTypesImproved_stages_eq (ok : String → Bool)
    (existing : List (String × TargetNamed)) :
    ∀ (pts : List SrcPubType) (st : TargetConfig),
      (transferTypesImproved ok existing pts st).1.stages = st.stages := by
  intro pts
  induction pts with
  | nil => intro st; rfl
  | cons pt rest ih =>
    intro st
    unfold transferTypesImproved
    cases h : lookupAssoc existing pt.name with
    | some ex => dsimp only; exact ih st
    | none =>
      by_cases hok : ok pt.name = true
      · rw [if_pos hok]; dsimp only; exact ih _
      · rw [if_neg hok]; exact ih st

theorem transferTypesImproved_cover (ok : String → Bool)
    (existing : List (String × TargetNamed)) :
    ∀ (pts : List SrcPubType) (st : TargetConfig) (pt : SrcPubType), pt ∈ pts →
      (lookupAssoc existing pt.name).isSome = true
      ∨ (∃ t ∈ (transferTypesImproved ok existing pts st).1.types, t.name = pt.name)
      ∨ ok pt.name = false := by
  intro pts
  induction pts with
  | nil => intro st pt hpt; exact absurd hpt (List.not_mem_nil pt)
  | cons q rest ih =>
    intro st pt hpt
    unfold transferTypesImproved
    rcases List.mem_cons.mp hpt with rfl | htail
    · cases h : lookupAssoc existing pt.name with
      | some ex => exact Or.inl rfl
      | none =>
        by_cases hok : ok pt.name = true
        · rw [if_pos hok]; dsimp only
          refine Or.inr (Or.inl ⟨⟨freshId st.counter, pt.name⟩, ?_, rfl⟩)
          apply transferTypesImproved_types_mono
          exact List.mem_append_right _ (List.mem_singleton.mpr rfl)
        · rw [if_neg hok]
          exact Or.inr (Or.inr (by revert hok; cases ok pt.name <;> simp))
    · cases h : lookupAssoc existing q.name with
      | some ex => dsimp only; exact ih st pt htail
      | none =>
        by_cases hok : ok q.name = true
        · rw [if_pos hok]; dsimp only; exact ih _ pt htail
        · rw [if_neg hok]; exact ih st pt htail

theorem transferTypesImproved_noop (ok : String → Bool)
    (existing : List (String × TargetNamed)) :
    ∀ (pts : List SrcPubType) (st : TargetConfig),
      (∀ pt ∈ pts, (lookupAssoc existing pt.name).isSome = true ∨ ok pt.name = false) →
      (transferTypesImproved ok existing pts st).1 = st := by
  intro pts
  induction pts with
  | nil => intro st _; rfl
  | cons pt rest ih =>
    intro st h
    unfold transferTypesImproved
    have htail : ∀ q ∈ rest, (lookupAssoc existing q.name).isSome = true ∨ ok q.name = false :=
      fun q hq => h q (List.mem_cons_of_mem pt hq)
    cases hl : lookupAssoc existing pt.name with
    | some ex => dsimp only; exact ih st htail
    | none =>
      rcases h pt (List.mem_cons_self pt rest) with hs | hf
      · rw [hl] at hs; simp at hs
      · rw [if_neg (by rw [hf]; simp)]
        exact ih st htail

theorem transferStagesImproved_stages_mono (ok : String → Bool)
    (existing : List (String × TargetNamed)) :
    ∀ (ss : List SrcStage) (st : TargetConfig) (t : TargetNamed),
      t ∈ st.stages → t ∈ (transferStagesImproved ok existing ss st).1.stages := by
  intro ss
  induction ss with
  | nil => intro st t ht; exact ht
  | cons s rest ih =>
    intro st t ht
    unfold transferStagesImproved
    cases h : lookupAssoc existing s.name with
    | some ex => dsimp only; exact ih st t ht
    | none =>
      by_cases hok : ok s.name = true
      · rw [if_pos hok]; dsimp only
        exact ih _ t (List.mem_append_left _ ht)
      · rw [if_neg hok]; exact ih st t ht

theorem transferStagesImproved_types_eq (ok : String → Bool)
    (existing : List (String × TargetNamed)) :
    ∀ (ss : List SrcStage) (st : TargetConfig),
      (transferStagesImproved ok existing ss st).1.types = st.types := by
  intro ss
  induction ss with
  | nil => intro st; rfl
  | cons s rest ih =>
    intro st
    unfold transferStagesImproved
    cases h : lookupAssoc existing s.name with
    | some ex => dsimp only; exact ih st
    | none =>
      by_cases hok : ok s.name = true
      · rw [if_pos hok]; dsimp only; exact ih _
      · rw [if_neg hok]; exact ih st

theorem transferStagesImproved_cover (ok : String → Bool)
    (existing : List (String × TargetNamed)) :
    ∀ (ss : List SrcStage) (st : TargetConfig) (s : SrcStage), s ∈ ss →
      (lookupAssoc existing s.name).isSome = true
      ∨ (∃ t ∈ (transferStagesImproved ok existing ss st).1.stages, t.name = s.name)
      ∨ ok s.name = false := by
  intro ss
  induction ss with
  | nil => intro st s hs; exact absurd hs (List.not_mem_nil s)
  | cons q rest ih =>
    intro st s hs
    unfold transferStagesImproved
    rcases List.mem_cons.mp hs with rfl | htail
    · cases h : lookupAssoc existing s.name with
      | some ex => exact Or.inl rfl
      | none =>
        by_cases hok : ok s.name = true
        · rw [if_pos hok]; dsimp only
          refine Or.inr (Or.inl ⟨⟨freshId st.counter, s.name⟩, ?_, rfl⟩)
          apply transferStagesImproved_stages_mono
          exact List.mem_append_right _ (List.mem_singleton.mpr rfl)
        · rw [if_neg hok]
          exact Or.inr (Or.inr (by revert hok; cases ok s.name <;> simp))
    · cases h : lookupAssoc existing q.name with
      | some ex => dsimp only; exact ih st s htail
      | none =>
        by_cases hok : ok q.name = true
        · rw [if_pos hok]; dsimp only; exact ih _ s htail
        · rw [if_neg hok]; exact ih st s htail

theorem transferStagesImproved_noop (ok : String → Bool)
    (existing : List (String × TargetNamed)) :
    ∀ (ss : List SrcStage) (st : TargetConfig),
      (∀ s ∈ ss, (lookupAssoc existing s.name).isSome = true ∨ ok s.name = false) →
      (transferStagesImproved ok existing ss st).1 = st := by
  intro ss
  induction ss with
  | nil => intro st _; rfl
  | cons s rest ih =>
    intro st h
    unfold transferStagesImproved
    have htail : ∀ q ∈ rest, (lookupAssoc existing q.name).isSome = true ∨ ok q.name = false :=
      fun q hq => h q (List.mem_cons_of_mem s hq)
    cases hl : lookupAssoc existing s.name with
    | some ex => dsimp only; exact ih st htail
    | none =>
      rcases h s (List.mem_cons_self s rest) with hs | hf
      · rw [hl] at hs; simp at hs
      · rw [if_neg (by rw [hf]; simp)]
        exact ih st htail

/-- Re-running the improved engine against the unmodified result of a first
run leaves the target store unchanged: every source name is either already
present after the first run or its creation deterministically fails. -/
theorem configEngineRunImproved_idem (ok : String → Bool) (pts : List SrcPubType)
    (stages : List SrcStage) (st : TargetConfig) :
    configEngineRunImproved ok pts stages (configEngineRunImproved ok pts stages st)
      = configEngineRunImproved ok pts stages st := by
  set stA := (transfer_pub_types_improved ok pts st).1 with hA
  set st1 := (transfer_stages_improved ok stages stA).1 with h1
  have hrun : configEngineRunImproved ok pts stages st = st1 := rfl
  have hst1types : st1.types = stA.types := by
    rw [h1]
    exact transferStagesImproved_types_eq ok (buildNameDict stA.stages) stages stA
  have hstAstages : stA.stages = st.stages := by
    rw [hA]
    exact transferTypesImproved_stages_eq ok (buildNameDict st.types) pts st
  have htypesCover : ∀ pt ∈ pts,
      (lookupAssoc (buildNameDict st1.types) pt.name).isSome = true
      ∨ ok pt.name = false := by
    intro pt hpt
    rcases transferTypesImproved_cover ok (buildNameDict st.types) pts st pt hpt with
      hs | hex | hf
    · left
      rw [lookup_buildNameDict_isSome] at hs ⊢
      rcases List.any_eq_true.mp hs with ⟨t, ht, hname⟩
      refine List.any_eq_true.mpr ⟨t, ?_, hname⟩
      rw [hst1types, hA]
      exact transferTypesImproved_types_mono ok (buildNameDict st.types) pts st t ht
    · left
      rw [lookup_buildNameDict_isSome]
      rcases hex with ⟨t, ht, hname⟩
      refine List.any_eq_true.mpr ⟨t, ?_, by simp [hname]⟩
      rw [hst1types, hA]
      exact ht
    · right; exact hf
  have hstagesCover : ∀ s ∈ stages,
      (lookupAssoc (buildNameDict st1.stages) s.name).isSome = true
      ∨ ok s.name = false := by
    intro s hs
    rcases transferStagesImproved_cover ok (buildNameDict stA.stages) stages stA s hs with
      hsome | hex | hf
    · left
      rw [lookup_buildNameDict_isSome] at hsome ⊢
      rcases List.any_eq_true.mp hsome with ⟨t, ht, hname⟩
      refine List.any_eq_true.mpr ⟨t, ?_, hname⟩
      rw [h1]
      exact transferStagesImproved_stages_mono ok (buildNameDict stA.stages) stages stA t ht
    · left
      rw [lookup_buildNameDict_isSome]
      rcases hex with ⟨t, ht, hname⟩
      refine List.any_eq_true.mpr ⟨t, ?_, by simp [hname]⟩
      exact ht
    · right; exact hf
  have htypesPass2 : (transfer_pub_types_improved ok pts st1).1 = st1 :=
    transferTypesImproved_noop ok (buildNameDict st1.types) pts st1 htypesCover
  have hstagesPass2 : (transfer_stages_improved ok stages st1).1 = st1 :=
    transferStagesImproved_noop ok (buildNameDict st1.stages) stages st1 hstagesCover
  show (transfer_stages_improved ok stages (transfer_pub_types_improved ok pts st1).1).1 = st1
  rw [htypesPass2, hstagesPass2]

/-- C3 counterexample: `transfer_pub_types` of src/transfer_config_and_data.py
creates unconditionally — it never fetches or name-matches existing target
types — so running it twice against an unchanged target turns one source
type into two identically named target types: the count is 1 after the
first run and 2 after the second. -/
theorem C3_counterexample :
    ((transferTypesBasic (fun _ => true) demoTypes emptyTarget).1.types.length = 1)
    ∧ ((transferTypesBasic (fun _ => true) demoTypes
        (transferTypesBasic (fun _ => true) demoTypes emptyTarget).1).1.types.length = 2)
    ∧ (transferTypesBasic (fun _ => true) demoTypes
        (transferTypesBasic (fun _ => true) demoTypes emptyTarget).1).1.types
      = [{ id := "tgt0", name := "T" }, { id := "tgt1", name := "T" }] := by
  refine ⟨rfl, rfl, rfl⟩

/-- C3 (amended): the idempotent re-run property holds for the improved
engine (src/improved_transfer.py): it fetches existing target objects
before creating, matches by exact name and reuses matched ids, so running
it twice against a target unchanged in between leaves the type and stage
counts after the second run equal to those after the first (the store is in
fact unchanged).  The older src/transfer_config_and_data.py engine creates
unconditionally and duplicates on re-run (see the counterexample). -/
theorem C3_improved_rerun_converges :
    ∀ (ok : String → Bool) (pts : List SrcPubType) (stages : List SrcStage)
      (st : TargetConfig),
      (configEngineRunImproved ok pts stages
          (configEngineRunImproved ok pts stages st)).types.length
        = (configEngineRunImproved ok pts stages st).types.length
      ∧ (configEngineRunImproved ok pts stages
          (configEngineRunImproved ok pts stages st)).stages.length
        = (configEngineRunImproved ok pts stages st).stages.length := by
  intro ok pts stages st
  rw [configEngineRunImproved_idem]
  exact ⟨rfl, rfl⟩

/-! ### C4 — slug uniqueness under the timestamp discriminator -/

/-- The title `create_pub_from_record` resolves for a record before the
timestamp discriminator is appended. -/
def resolvedTitle (table_name : String) (record : AirtableRecord) (tm : TableMapping) :
    String :=
  resolveTitleStr (firstPass record tm.fields
      { values := [], relations := [], cache := tm.field_mappings }).values
    tm.fields record table_name

theorem string_data_append (x y : String) : (x ++ y).data = x.data ++ y.data := by
  cases x; cases y; rfl

theorem string_data_inj {x y : String} (h : x.data = y.data) : x = y := by
  cases x; cases y; exact congrArg String.mk h

theorem slugify_append (a b : String) : slugify (a ++ b) = slugify a ++ slugify b := by
  unfold slugify
  have h : (a ++ b).toList = a.toList ++ b.toList := by
    cases a; cases b; rfl
  rw [h, List.map_append, List.map_append, List.filter_append]
  rfl

/-- The slug of a created pub is the slugified concatenation of the resolved
title and the bracketed timestamp. -/
theorem build_pub_data_slug (pub_types : List PubType) (table_name : String)
    (record : AirtableRecord) (tm : TableMapping) (ts : String)
    (pd : PubData) (rels : List Value) (cache' : List (String × Mapping)) :
    build_pub_data pub_types table_name record tm ts = some (pd, rels, cache') →
    pd.slug = slugify (resolvedTitle table_name record tm ++ " [" ++ ts ++ "]") := by
  intro h
  unfold build_pub_data at h
  cases hs : suggest_pub_type table_name record pub_types with
  | none => rw [hs] at h; exact absurd h (by simp)
  | some ptid =>
    rw [hs] at h
    dsimp only at h
    rw [Option.some.injEq] at h
    have hslug := congrArg
      (fun x : PubData × List Value × List (String × Mapping) => x.1.slug) h
    dsimp only at hslug
    rw [← hslug]
    rfl

/-- Slug-level characters of the two timestamps decide slug equality once
title, bracket and space contribute identically. -/
theorem slugify_bracket_inj (T a b : String) :
    slugify (T ++ " [" ++ a ++ "]") = slugify (T ++ " [" ++ b ++ "]") →
    slugify a = slugify b := by
  intro h
  simp only [slugify_append] at h
  have hd := congrArg String.data h
  have hz : (slugify "]").data = [] := rfl
  simp only [string_data_append, hz, List.append_nil, List.append_assoc] at hd
  exact string_data_inj
    (List.append_cancel_left (List.append_cancel_left hd))

/-- C4 (amended): two records built in one run that share an identical
resolved title receive distinct slugs provided their creation timestamps
remain distinct after slug filtering (underscores and brackets are
stripped); since the timestamp has second resolution, records created
within the same second receive identical slugs (see the counterexample). -/
theorem C4_slug_distinct_when_ts_differ :
    ∀ (pub_types : List PubType) (t1 t2 : String) (r1 r2 : AirtableRecord)
      (tm1 tm2 : TableMapping) (ts1 ts2 : String)
      (pd1 pd2 : PubData) (x1 x2 : List Value) (c1 c2 : List (String × Mapping)),
      build_pub_data pub_types t1 r1 tm1 ts1 = some (pd1, x1, c1) →
      build_pub_data pub_types t2 r2 tm2 ts2 = some (pd2, x2, c2) →
      resolvedTitle t1 r1 tm1 = resolvedTitle t2 r2 tm2 →
      slugify ts1 ≠ slugify ts2 →
      pd1.slug ≠ pd2.slug := by
  intro pub_types t1 t2 r1 r2 tm1 tm2 ts1 ts2 pd1 pd2 x1 x2 c1 c2 h1 h2 htitle hts
  rw [build_pub_data_slug pub_types t1 r1 tm1 ts1 pd1 x1 c1 h1,
      build_pub_data_slug pub_types t2 r2 tm2 ts2 pd2 x2 c2 h2, htitle]
  intro heq
  exact hts (slugify_bracket_inj _ ts1 ts2 heq)

/-! ### Concrete migration scenario used by C1 and C4 -/

/-- One target pub type named Preprint. -/
def c1PubTypes : List PubType := [{ id := "pt1", name := "Preprint" }]

/-- Cached mapping entry for the demo table: a Title field and a
cross-table `Related` link field, with an empty suggestion cache. -/
def c1TM : TableMapping :=
  { fields := [("fldTitle", { name := "Title", type := "singleLineText" }),
               ("fldRel", { name := "Related", type := "multipleRecordLinks" })]
    field_mappings := [] }

/-- The mappings cache keyed by table name. -/
def c1Mappings : List (String × TableMapping) := [("Preprints", c1TM)]

/-- Record A links (cross-table) to record B. -/
def recA : AirtableRecord :=
  { id := "recA", fields := [("fldTitle", Value.str "Alpha"),
                             ("fldRel", Value.list [Value.str "recB"])] }

/-- Record B, the link target. -/
def recB : AirtableRecord :=
  { id := "recB", fields := [("fldTitle", Value.str "Beta")] }

/-- One run's sample data: records A and B of one table. -/
def c1Sample : List (String × List AirtableRecord) := [("Preprints", [recA, recB])]

/-- The per-record `datetime.now()` oracle: both records in one second. -/
def tsC : Nat → String := fun _ => "20240102_030405"

/-- Target API oracle: both creations succeed (A is minted `pubA`, B is
minted `pubB`). -/
def oracleBoth : PubData → Option String := fun pd =>
  if pd.title = "Alpha [20240102_030405]" then some "pubA" else some "pubB"

/-- Target API oracle: A succeeds as `pubA`, B's creation fails. -/
def oracleBFail : PubData → Option String := fun pd =>
  if pd.title = "Alpha [20240102_030405]" then some "pubA" else none

/-- Two records with the same resolved title. -/
def recS1 : AirtableRecord := { id := "r1", fields := [("fldTitle", Value.str "Same")] }

/-- Second record with the same resolved title. -/
def recS2 : AirtableRecord := { id := "r2", fields := [("fldTitle", Value.str "Same")] }

/-- Sample data with the two same-titled records. -/
def sameSample : List (String × List AirtableRecord) := [("Preprints", [recS1, recS2])]

/-- Timestamp oracle for two creations within the same second. -/
def tsSame : Nat → String := fun _ => "20240101_120000"

/-- Target API oracle that accepts everything. -/
def oracleAll : PubData → Option String := fun _ => some "pubX"

/-- C4 counterexample: both same-titled records are migrated in one run
within one second (the discriminator has second resolution), and the two
created entities receive the identical slug `"same-20240101120000"` — the
claimed pairwise distinctness fails. -/
theorem C4_counterexample :
    (runMain oracleAll c1PubTypes c1Mappings sameSample tsSame).trace
      = [Event.createPub "Preprints" "r1" "same-20240101120000" (some "pubX"),
         Event.createPub "Preprints" "r2" "same-20240101120000" (some "pubX")] := by
  decide

/-- C4 witness: the amended theorem applied at two concrete timestamps one
second apart — the two slugs differ. -/
theorem C4_slug_distinct_witness :
    ¬("same-20240101000001" : String) = "same-20240101000002" :=
  fun h =>
    C4_slug_distinct_when_ts_differ c1PubTypes "Preprints" "Preprints" recS1 recS2
      c1TM c1TM "20240101_000001" "20240101_000002"
      { title := "Same [20240101_000001]"
        slug := "same-20240101000001"
        description := Value.str "Record from Preprints | Title: Same"
        isPublic := true
        pubTypeId := "pt1"
        communityId := "rrid"
        values := [("rrid:title", Value.str "Same [20240101_000001]"),
                   ("rrid:description", Value.str "Record from Preprints | Title: Same")] }
      { title := "Same [20240101_000002]"
        slug := "same-20240101000002"
        description := Value.str "Record from Preprints | Title: Same"
        isPublic := true
        pubTypeId := "pt1"
        communityId := "rrid"
        values := [("rrid:title", Value.str "Same [20240101_000002]"),
                   ("rrid:description", Value.str "Record from Preprints | Title: Same")] }
      [] [] [("fldTitle", { pubpub_field := "title", confidence := "high" })]
      [("fldTitle", { pubpub_field := "title", confidence := "high" })]
      (by decide) (by decide) rfl (by decide) (by exact h)

/-! ### C1 — relation updates and the id remap -/

/-- C1 (code bug): with records A and B both created successfully (as
`pubA` and `pubB`), the relation update issued for A carries B's source
Airtable id `"recB"` — not B's remapped target id `"pubB"`: no entity id
remap exists in src/create_test_pubs.py, `update_pub_relations` PATCHes the
collected source ids as `relatedPubId` directly.  And when B's creation
fails, the edge is not omitted: the identical PATCH with `"recB"` is still
issued.  The run does complete (the loop structure finishes either way). -/
theorem C1_relation_update_uses_source_ids :
    (runMain oracleBoth c1PubTypes c1Mappings c1Sample tsC).trace
      = [Event.createPub "Preprints" "recA" "alpha-20240102030405" (some "pubA"),
         Event.createPub "Preprints" "recB" "beta-20240102030405" (some "pubB"),
         Event.relationUpdate "pubA" [Value.str "recB"]]
    ∧ (runMain oracleBFail c1PubTypes c1Mappings c1Sample tsC).trace
      = [Event.createPub "Preprints" "recA" "alpha-20240102030405" (some "pubA"),
         Event.createPub "Preprints" "recB" "beta-20240102030405" none,
         Event.relationUpdate "pubA" [Value.str "recB"]]
    ∧ ("recB" : String) ≠ "pubB" := by
  refine ⟨by decide, by decide, by decide⟩

end PubGateway
